import Mathlib

/-!
Verification development for the member-verification FSM of the
discord-verify bot (module `iam/verify.py`, with `iam/db.py`,
`iam/mail.py`, `iam/hooks.py` as collaborators).

Modelling conventions:
* Timestamps (`time()`) are modelled as `Nat`.
* Python `str(n)` on a natural number is modelled by `pyStr` below
  (decimal representation), for which injectivity is proved.
* The library call `hmac.new(secret, msg, "sha256").hexdigest()` is
  modelled as an abstract keyed-hash parameter `hmacHex` in `Ctx`.
* All database mutations concern a single member, so the store is an
  `Option MemberData` for that member, and `update_member_data` with a
  patch is modelled as a record update of exactly the patched fields.
* Discord side effects (DMs, channel messages, role grants, outgoing
  mail) are collected in a `List Effect`.
* A Python exception escaping a handler is modelled in the `err` field
  of the result.
* The command prefix `PREFIX` is loaded from `config.yml` (not part of
  the repository); it is modelled as the literal `!` inside messages.
-/

/-! ### Decimal strings: model of Python `str` on numbers -/

/-- Character for a single decimal digit (`d < 10`). -/
def digitChar : Nat → Char
  | 0 => '0'
  | 1 => '1'
  | 2 => '2'
  | 3 => '3'
  | 4 => '4'
  | 5 => '5'
  | 6 => '6'
  | 7 => '7'
  | 8 => '8'
  | 9 => '9'
  | _ => '*'

/-- Big-endian decimal digits of `n`, with explicit fuel so that the
recursion is structural. -/
def natDigitsGo : Nat → Nat → List Nat
  | 0, _ => []
  | fuel + 1, n => if n < 10 then [n] else natDigitsGo fuel (n / 10) ++ [n % 10]

/-- Big-endian decimal digits of `n`. -/
def natDigits (n : Nat) : List Nat :=
  natDigitsGo (n + 1) n

/-- Recombine big-endian decimal digits into a number. -/
def fromDigits (ds : List Nat) : Nat :=
  ds.foldl (fun a d => a * 10 + d) 0

/-- Model of Python `str(n)` for a natural number `n`. -/
def pyStr (n : Nat) : String :=
  String.mk ((natDigits n).map digitChar)

theorem fromDigits_append_single (ds : List Nat) (d : Nat) :
    fromDigits (ds ++ [d]) = fromDigits ds * 10 + d := by
  simp [fromDigits, List.foldl_append]

theorem natDigitsGo_spec (fuel : Nat) :
    ∀ n : Nat, n < fuel → fromDigits (natDigitsGo fuel n) = n := by
  induction fuel with
  | zero => intro n h; omega
  | succ fuel ih =>
    intro n h
    by_cases h10 : n < 10
    · simp [natDigitsGo, h10, fromDigits]
    · have hdiv : n / 10 < fuel := by
        have : n / 10 < n := Nat.div_lt_self (by omega) (by omega)
        omega
      simp only [natDigitsGo, if_neg h10]
      rw [fromDigits_append_single, ih (n / 10) hdiv]
      omega

theorem fromDigits_natDigits (n : Nat) : fromDigits (natDigits n) = n :=
  natDigitsGo_spec (n + 1) n (Nat.lt_succ_self n)

theorem natDigits_injective {a b : Nat} (h : natDigits a = natDigits b) : a = b := by
  have := congrArg fromDigits h
  rwa [fromDigits_natDigits, fromDigits_natDigits] at this

theorem natDigitsGo_lt_ten (fuel : Nat) :
    ∀ n : Nat, ∀ d ∈ natDigitsGo fuel n, d < 10 := by
  induction fuel with
  | zero => intro n d hd; simp [natDigitsGo] at hd
  | succ fuel ih =>
    intro n d hd
    by_cases h10 : n < 10
    · simp [natDigitsGo, h10] at hd; omega
    · simp only [natDigitsGo, if_neg h10, List.mem_append, List.mem_singleton] at hd
      rcases hd with hd | hd
      · exact ih (n / 10) d hd
      · subst hd; exact Nat.mod_lt n (by omega)

theorem natDigits_lt_ten (n : Nat) : ∀ d ∈ natDigits n, d < 10 :=
  natDigitsGo_lt_ten (n + 1) n

theorem digitChar_injOn :
    ∀ a, a < 10 → ∀ b, b < 10 → digitChar a = digitChar b → a = b := by
  decide

theorem map_digitChar_injective :
    ∀ l1 l2 : List Nat, (∀ d ∈ l1, d < 10) → (∀ d ∈ l2, d < 10) →
      l1.map digitChar = l2.map digitChar → l1 = l2 := by
  intro l1
  induction l1 with
  | nil => intro l2 _ _ h; cases l2 <;> simp_all
  | cons a l1 ih =>
    intro l2 h1 h2 h
    cases l2 with
    | nil => simp at h
    | cons b l2 =>
      simp only [List.map_cons, List.cons.injEq] at h
      have ha : a < 10 := h1 a (by simp)
      have hb : b < 10 := h2 b (by simp)
      have hab : a = b := digitChar_injOn a ha b hb h.1
      have htl : l1 = l2 :=
        ih l2 (fun d hd => h1 d (by simp [hd])) (fun d hd => h2 d (by simp [hd])) h.2
      simp [hab, htl]

/-- Python decimal strings are injective: `str(a) == str(b)` implies `a == b`. -/
theorem pyStr_injective {a b : Nat} (h : pyStr a = pyStr b) : a = b := by
  have hdata : (natDigits a).map digitChar = (natDigits b).map digitChar := by
    have := congrArg String.data h
    simpa [pyStr] using this
  exact natDigits_injective
    (map_digitChar_injective _ _ (natDigits_lt_ten a) (natDigits_lt_ten b) hdata)

/-! ### Data model (`iam/db.py`) -/

/-- Source: `class State(IntEnum)` in `iam/verify.py`; all possible states in
the Verify FSM. -/
inductive State
  | AWAIT_NAME
  | AWAIT_UNSW
  | AWAIT_ZID
  | AWAIT_EMAIL
  | AWAIT_CODE
  | AWAIT_ID
  | AWAIT_APPROVAL
  deriving DecidableEq, Repr

/-- Source: `config["max-verification-emails"]` (`MAX_VER_EMAILS`), loaded from
`config.yml`, which is not part of the repository; the concrete value is
irrelevant to the claims, modelled as 3. -/
def MAX_VER_EMAILS : Nat := 3

/-- Source: `class MemberKey` / `make_def_member_data` in `iam/db.py`: the
fields of a member entry in the database.  Field names follow the
`MemberKey` constants (`VER_STATE = "_verify_state"` etc.). -/
structure MemberData where
  full_name : Option String
  zid : Option String
  email : Option String
  email_verified : Bool
  id_message : Option Nat
  id_verified : Bool
  verifying_exec : Option Nat
  ver_state : Option State
  ver_time : Nat
  email_attempts : Nat
  max_email_attempts : Nat
  deriving DecidableEq, Repr

/-- Source: `make_def_member_data()` in `iam/db.py`; `now` is the value of
`time()` at the call. -/
def make_def_member_data (now : Nat) : MemberData :=
  { full_name := none
    zid := none
    email := none
    email_verified := false
    id_message := none
    id_verified := false
    verifying_exec := none
    ver_state := none
    ver_time := now
    email_attempts := 0
    max_email_attempts := MAX_VER_EMAILS }

/-! ### Effects, errors and results -/

/-- Observable side effects of the handlers: DMs to the member
(`member.send`), a reply to the invoking message (`invoke_message.reply`),
messages to the admin channel (`admin_channel.send`), messages to the
channel a moderator command was invoked in (`channel.send`), join
announcements (`join_announce_channel.send`), outgoing mail
(`mail.send_email`, recorded when the call is made, whether or not it
raises), and role grants (`member.add_roles(ver_role)`). -/
inductive Effect
  | dmMember (text : String)
  | replyInvoker (text : String)
  | adminMsg (text : String)
  | channelMsg (text : String)
  | joinAnnounce (text : String)
  | mailSend (recipient : Option String) (subject : String) (body : String)
  | grantRole
  deriving DecidableEq, Repr

/-- Whether an effect is an outgoing verification email. -/
def Effect.isMailSend : Effect → Bool
  | Effect.mailSend _ _ _ => true
  | _ => false

/-- Python exceptions that can escape the modelled handlers:
`TypeError` (call with wrong arity), `AttributeError` (missing method),
and `CheckFailed(obj, msg)` from `iam/hooks.py` (raised by
`check(..., notify=True)` when a precondition fails; its `msg` is the
user-facing reason). -/
inductive PyErr
  | typeError
  | attributeError
  | checkFailed (msg : String)
  deriving DecidableEq, Repr

/-- Result of a handler that operates on an existing member record:
the updated record, the effects produced, and an escaped exception if any. -/
structure StepRes where
  md : MemberData
  eff : List Effect
  err : Option PyErr
  deriving DecidableEq, Repr

/-- Result of a top-level operation: the member's database entry afterwards
(`none` if absent), the effects produced, and an escaped exception if any. -/
structure Res where
  db : Option MemberData
  eff : List Effect
  err : Option PyErr
  deriving DecidableEq, Repr

/-- View a record-level result as a top-level result. -/
def StepRes.toRes (r : StepRes) : Res :=
  { db := some r.md, eff := r.eff, err := r.err }

/-- Ambient context: the keyed hash modelling
`hmac.new(secret, msg, "sha256").hexdigest()`, the secret
(`db.get_secret(SecretID.VERIFY)`), whether `mail.send_email` succeeds
(when `false` it raises `MailError`), and the Discord id assigned to the
message posted in the admin channel by `proc_forward_id_admins`. -/
structure Ctx where
  hmacHex : List Nat → String → String
  secret : List Nat
  mailOk : Bool
  adminMsgId : Nat

/-! ### Validators -/

/-- Source: `is_valid_zid` in `iam/verify.py`, regex `^[zZ][0-9]{7}$`
(the `$`-before-trailing-newline subtlety of Python `re` is not modelled). -/
def is_valid_zid (zid : String) : Bool :=
  match zid.data with
  | c :: rest => (c == 'z' || c == 'Z') && rest.length == 7 && rest.all (fun d => d.isDigit)
  | [] => false

/-- Character class `[a-zA-Z0-9_.+-]` of `EMAIL_REGEX` in `iam/mail.py`. -/
def emailLocalChar (c : Char) : Bool :=
  c.isAlphanum || c == '_' || c == '.' || c == '+' || c == '-'

/-- Character class `[a-zA-Z0-9-]` of `EMAIL_REGEX` in `iam/mail.py`. -/
def emailDomainChar (c : Char) : Bool :=
  c.isAlphanum || c == '-'

/-- Character class `[a-zA-Z0-9-.]` of `EMAIL_REGEX` in `iam/mail.py`. -/
def emailTailChar (c : Char) : Bool :=
  c.isAlphanum || c == '-' || c == '.'

/-- Source: `is_valid_email` in `iam/mail.py`, regex
`(^[a-zA-Z0-9_.+-]+@[a-zA-Z0-9-]+\.[a-zA-Z0-9-.]+$)`: a nonempty local
part, `@`, a nonempty dot-free domain label, `.`, and a nonempty tail. -/
def is_valid_email (email : String) : Bool :=
  let cs := email.data
  let lp := cs.takeWhile (fun c => c != '@')
  let rest := cs.drop (lp.length + 1)
  let d1 := rest.takeWhile (fun c => c != '.')
  let tl := rest.drop (d1.length + 1)
  !lp.isEmpty && lp.all emailLocalChar && decide (lp.length < cs.length) &&
  !d1.isEmpty && d1.all emailDomainChar && decide (d1.length < rest.length) &&
  !tl.isEmpty && tl.all emailTailChar

/-- Model of Python ASCII lowercasing of a character (`str.lower`). -/
def pyLowerChar (c : Char) : Char :=
  if 'A' ≤ c ∧ c ≤ 'Z' then Char.ofNat (c.toNat + 32) else c

/-- Model of Python `str.lower()` (ASCII fragment). -/
def pyLower (s : String) : String :=
  String.mk (s.data.map pyLowerChar)

/-- Rendering of a member mention (`member.mention`). -/
def mention (userId : Nat) : String :=
  "<@" ++ pyStr userId ++ ">"

/-- Python string interpolation of a value that may be `None`. -/
def pyShow (s : Option String) : String :=
  match s with
  | none => "None"
  | some t => t

/-! ### Message texts (`iam/verify.py`) -/

/-- Source: `proc_request_name`, `iam/verify.py` lines 298-315. -/
def MSG_NAME_PROMPT : String :=
  "Arc - UNSW Student Life strongly recommends all student societies verify their members\x27 identities before allowing them to interact with their online communities (Arc Clubs Handbook section 22.2)\n\nTo send messages in our PCSoc Discord server, we require the following:\n(1) Your full name\n(2) Whether or not you\x27re a student at UNSW\n  (2a) If yes, your UNSW-issued zID\n\n  (2b) If not, your email address\n  (3b) Your government-issued photo ID (e.g. driver\x27s license or photo card).\n\nThe information you share with us is only accessible by our current executive team - we do not share this with any other parties. You may request to have your record deleted if you are no longer a member of PCSoc.\nIf you have questions or you\x27re stuck, feel free to message any of our executives :)\n-----\n(1) What is your full name as it appears on your government-issued ID?\nYou can restart this verification process at any time by typing `!restart`."

/-- Source: `proc_begin`, reply to the invoking message. -/
def MSG_CHECK_DMS : String :=
  "Please check your DMs for a message from me."

/-- Source: `proc_begin`, member already undergoing verification. -/
def MSG_ALREADY_UNDERGOING : String :=
  "You are already undergoing the verification process. To restart, type `!restart`."

/-- Source: `proc_restart` and `is_verifying_user`. -/
def MSG_NOT_BEING_VERIFIED : String :=
  "You are not currently being verified."

/-- Source: `proc_restart` and `is_verifying_user`. -/
def MSG_ALREADY_VERIFIED : String :=
  "You are already verified."

/-- Source: `proc_restart`, restart from `AWAIT_ID` or `AWAIT_APPROVAL`. -/
def MSG_NO_RESTART_AFTER_EMAIL : String :=
  "You cannot restart after verifying your email!"

/-- Source: `state_await_name`, name longer than `MAX_NAME_LEN = 500`. -/
def MSG_NAME_TOO_LONG : String :=
  "Name must be 500 characters or fewer. Please try again."

/-- Source: `proc_request_unsw`. -/
def MSG_UNSW_PROMPT : String :=
  "(2) Are you a UNSW student? Please type `y` or `n`."

/-- Source: `state_await_unsw`, unrecognized answer. -/
def MSG_UNSW_RETRY : String :=
  "Please type `y` or `n`."

/-- Source: `proc_request_zid`. -/
def MSG_ZID_PROMPT : String :=
  "(2a) What is your zID?"

/-- Source: `state_await_zid`, invalid zID. -/
def MSG_ZID_INVALID : String :=
  "Your zID must match the following format: `zXXXXXXX`. Please try again"

/-- Source: `proc_request_email`. -/
def MSG_EMAIL_PROMPT : String :=
  "(2b) What is your email address?"

/-- Source: `state_await_email`, invalid email address. -/
def MSG_EMAIL_INVALID : String :=
  "That is not a valid email address. Please try again."

/-- Source: `proc_send_email`, send limit reached. -/
def MSG_TOO_MANY_EMAILS : String :=
  "You have requested too many emails. Please DM an exec to continue verification."

/-- Source: `proc_send_email`, subject line of the verification email. -/
def MAIL_SUBJECT : String :=
  "PCSoc Discord Verification"

/-- Source: `proc_send_email`, generic error after a `MailError`.  NOTE: in
the source this message is unreachable, because `err.notify()` raises
`AttributeError` first (see `proc_send_email` below); it is kept here for
reference. -/
def MSG_MAIL_OOPS : String :=
  "Oops! Something went wrong while attempting to send you an email. Please ensure that your details have been entered correctly."

/-- Source: `proc_request_code`. -/
def MSG_CODE_PROMPT : String :=
  "Please enter the code sent to your email. If you are a UNSW student, this is your zID@student.unsw.edu.au email. Please check your spam folder if you don\x27t see it.\nYou can request another email by typing `!resend`."

/-- Source: `state_await_code`, code mismatch. -/
def MSG_WRONG_CODE : String :=
  "That was not the correct code. Please try again.\nYou can request another email by typing `!resend`."

/-- Source: `proc_request_id`. -/
def MSG_ID_PROMPT : String :=
  "(3b) Please send a message with a photo of your government-issued ID attached."

/-- Source: `state_await_id`, message without attachments. -/
def MSG_NO_ATTACHMENTS : String :=
  "No attachments received. Please try again."

/-- Source: `proc_forward_id_admins`, confirmation DM to the member. -/
def MSG_FORWARDED : String :=
  "Your attachment(s) have been forwarded to the execs. Please wait."

/-- Source: `proc_forward_id_admins`, message posted to the admin channel. -/
def MSG_FORWARD_ADMIN (userId : Nat) (full_name : Option String) : String :=
  "Received attachment(s) from " ++ mention userId ++
  ". Please verify that name on ID is `" ++ pyShow full_name ++
  "`, then type `!verify approve " ++ pyStr userId ++
  "` or `!verify reject " ++ pyStr userId ++ " \"reason\"`."

/-- Source: `_awaiting_approval`, record absent. -/
def MSG_USER_NOT_BEING_VERIFIED : String :=
  "That user is not currently being verified."

/-- Source: `_awaiting_approval`, member already verified. -/
def MSG_USER_ALREADY_VERIFIED : String :=
  "That user is already verified."

/-- Source: `_awaiting_approval`, member in another state. -/
def MSG_USER_NOT_AWAITING_APPROVAL : String :=
  "That user is not awaiting approval."

/-- Source: `proc_exec_reject`, DM to the rejected member. -/
def MSG_REJECT_DM (reason : String) : String :=
  "Your verification request has been denied for the following reason(s): `" ++
  reason ++ "`.\nYou can start a new request by typing `!verify` in the verification channel."

/-- Source: `proc_exec_reject`, notification in the invoking channel. -/
def MSG_REJECT_CHANNEL (userId : Nat) : String :=
  "Rejected verification request from " ++ mention userId ++ "."

/-- Source: `proc_grant_rank`, non-silent confirmation DM. -/
def MSG_NOW_VERIFIED : String :=
  "You are now verified. Welcome to the server! If you are interested in subscribing to our newsletter, try the `!newsletter` command."

/-- Source: `proc_grant_rank`, non-silent admin notification. -/
def MSG_GRANT_ADMIN (userId : Nat) : String :=
  mention userId ++ " is now verified."

/-- Source: `proc_grant_rank`, non-silent join announcement. -/
def MSG_GRANT_JOIN (userId : Nat) : String :=
  "Welcome " ++ mention userId ++ " to PCSoc!"

/-! ### Code generator (`get_code`, `iam/verify.py` lines 172-187) -/

/-- Source: `get_code(db, user, noise)`:
`secret = db.get_secret(SecretID.VERIFY)`;
`user_bytes = bytes(str(user.id + noise), "utf8")`;
`return hmac.new(secret, user_bytes, "sha256").hexdigest()`.
The keyed hash and the stored secret are the `Ctx` parameters. -/
def get_code (ctx : Ctx) (userId : Nat) (noise : Nat) : String :=
  ctx.hmacHex ctx.secret (pyStr (userId + noise))

/-- Modelled from the spec: section 4.1 describes the code as "a keyed hash
(HMAC-SHA256 or equivalent) over the concatenation of the member identity
and the nonce".  This definition follows the spec wording (concatenating
the decimal renderings of identity and nonce) and is compared against
`get_code`, which follows the source. -/
def generate_code_spec (ctx : Ctx) (userId : Nat) (noise : Nat) : String :=
  ctx.hmacHex ctx.secret (pyStr userId ++ pyStr noise)

/-! ### FSM request steps

Each `proc_request_*` sends a prompt and then, through the
`_next_state(...)` decorator, writes the new `VER_STATE` for the member. -/

/-- Source: `proc_request_name` (decorated `_next_state(State.AWAIT_NAME)`). -/
def proc_request_name (md : MemberData) : MemberData × List Effect :=
  ({ md with ver_state := some State.AWAIT_NAME }, [Effect.dmMember MSG_NAME_PROMPT])

/-- Source: `proc_request_unsw` (decorated `_next_state(State.AWAIT_UNSW)`). -/
def proc_request_unsw (md : MemberData) : MemberData × List Effect :=
  ({ md with ver_state := some State.AWAIT_UNSW }, [Effect.dmMember MSG_UNSW_PROMPT])

/-- Source: `proc_request_zid` (decorated `_next_state(State.AWAIT_ZID)`). -/
def proc_request_zid (md : MemberData) : MemberData × List Effect :=
  ({ md with ver_state := some State.AWAIT_ZID }, [Effect.dmMember MSG_ZID_PROMPT])

/-- Source: `proc_request_email` (decorated `_next_state(State.AWAIT_EMAIL)`). -/
def proc_request_email (md : MemberData) : MemberData × List Effect :=
  ({ md with ver_state := some State.AWAIT_EMAIL }, [Effect.dmMember MSG_EMAIL_PROMPT])

/-- Source: `proc_request_code` (decorated `_next_state(State.AWAIT_CODE)`). -/
def proc_request_code (md : MemberData) : MemberData × List Effect :=
  ({ md with ver_state := some State.AWAIT_CODE }, [Effect.dmMember MSG_CODE_PROMPT])

/-- Source: `proc_request_id` (decorated `_next_state(State.AWAIT_ID)`). -/
def proc_request_id (md : MemberData) : MemberData × List Effect :=
  ({ md with ver_state := some State.AWAIT_ID }, [Effect.dmMember MSG_ID_PROMPT])

/-- Source: `proc_grant_rank(ver_role, admin_channel, join_announce_channel,
member, silent=False)`: adds the verified role, and unless `silent` sends the
confirmation DM, a notification to the channel passed in the
`admin_channel` position (`adminCh`: `Effect.adminMsg` when called with the
configured admin channel, `Effect.channelMsg` when called from
`proc_exec_approve` with the invoking channel), and a join announcement. -/
def proc_grant_rank (adminCh : String → Effect) (userId : Nat) (silent : Bool) :
    List Effect :=
  Effect.grantRole ::
    (if silent then []
     else [Effect.dmMember MSG_NOW_VERIFIED,
           adminCh (MSG_GRANT_ADMIN userId),
           Effect.joinAnnounce (MSG_GRANT_JOIN userId)])

/-! ### Email dispatch -/

/-- Source: `proc_send_email(db, mail, member, member_data, email)`,
`iam/verify.py` lines 454-493.  `cur` is the member's current database
entry, `md` the `member_data` snapshot the caller passed in (they can
differ: `state_await_zid` updates the zID and email in the database before
calling, but passes its earlier snapshot).

If the snapshot's `EMAIL_ATTEMPTS` has reached `MAX_EMAIL_ATTEMPTS`, send
the too-many-emails DM and stop.  Otherwise generate the code from the
snapshot's `VER_TIME` and call `mail.send_email`.  On `MailError` the
source runs `err.notify()`; `MailError` (`iam/mail.py`) defines
`def_handler` but no `notify` method, so this raises `AttributeError`
before the oops DM can be sent - modelled as `PyErr.attributeError`.  On
success, increment `EMAIL_ATTEMPTS` (from the snapshot value) and run
`proc_request_code`. -/
def proc_send_email (ctx : Ctx) (userId : Nat) (cur md : MemberData)
    (email : Option String) : StepRes :=
  if md.email_attempts ≥ md.max_email_attempts then
    { md := cur, eff := [Effect.dmMember MSG_TOO_MANY_EMAILS], err := none }
  else
    let code := get_code ctx userId md.ver_time
    let attempt := Effect.mailSend email MAIL_SUBJECT ("Your code is " ++ code)
    if ctx.mailOk then
      let cur1 := { cur with email_attempts := md.email_attempts + 1 }
      let r := proc_request_code cur1
      { md := r.1, eff := attempt :: r.2, err := none }
    else
      { md := cur, eff := [attempt], err := some PyErr.attributeError }

/-- Source: `proc_resend_email(db, mail, member, member_data)`: only acts if
the member is not ID-verified and is in state `AWAIT_CODE`; then re-invokes
`proc_send_email` with the stored email address. -/
def proc_resend_email (ctx : Ctx) (userId : Nat) (cur md : MemberData) : StepRes :=
  if ¬ md.id_verified ∧ md.ver_state = some State.AWAIT_CODE then
    proc_send_email ctx userId cur md md.email
  else
    { md := cur, eff := [], err := none }

/-! ### Member-driven state handlers -/

/-- Source: `state_await_name(db, member, full_name)`: names longer than
`MAX_NAME_LEN = 500` are rejected; otherwise store the name and move on to
the UNSW question. -/
def state_await_name (md : MemberData) (full_name : String) : StepRes :=
  if full_name.data.length > 500 then
    { md := md, eff := [Effect.dmMember MSG_NAME_TOO_LONG], err := none }
  else
    let md1 := { md with full_name := some full_name }
    let r := proc_request_unsw md1
    { md := r.1, eff := r.2, err := none }

/-- Source: `state_await_unsw(db, member, ans)`: case-insensitive `y`/`yes`
leads to the zID question, `n`/`no` to the email question, anything else
re-prompts. -/
def state_await_unsw (md : MemberData) (ans : String) : StepRes :=
  let a := pyLower ans
  if a = "y" ∨ a = "yes" then
    let r := proc_request_zid md
    { md := r.1, eff := r.2, err := none }
  else if a = "n" ∨ a = "no" then
    let r := proc_request_email md
    { md := r.1, eff := r.2, err := none }
  else
    { md := md, eff := [Effect.dmMember MSG_UNSW_RETRY], err := none }

/-- Source: `state_await_zid(db, mail, member, member_data, zid)`: lowercase
the zID, validate it, derive the student email, store both, then dispatch
the verification email (passing the earlier `member_data` snapshot `md`). -/
def state_await_zid (ctx : Ctx) (userId : Nat) (cur md : MemberData)
    (zid : String) : StepRes :=
  let z := pyLower zid
  if ¬ is_valid_zid z then
    { md := cur, eff := [Effect.dmMember MSG_ZID_INVALID], err := none }
  else
    let email := z ++ "@student.unsw.edu.au"
    let cur1 := { cur with zid := some z, email := some email }
    proc_send_email ctx userId cur1 md (some email)

/-- Source: `state_await_email(db, mail, member, member_data, email)`:
validate the address, store it, then dispatch the verification email. -/
def state_await_email (ctx : Ctx) (userId : Nat) (cur md : MemberData)
    (email : String) : StepRes :=
  if ¬ is_valid_email email then
    { md := cur, eff := [Effect.dmMember MSG_EMAIL_INVALID], err := none }
  else
    let cur1 := { cur with email := some email }
    proc_send_email ctx userId cur1 md (some email)

/-- Source: `state_await_code(db, ver_role, admin_channel,
join_announce_channel, member, member_data, received_code)`: compare the
received code (via `hmac.compare_digest`, constant-time string equality)
against the code regenerated from the snapshot's `VER_TIME`.  Mismatch
re-prompts.  On match set `EMAIL_VER` and refresh `VER_TIME`; then if the
snapshot has no zID move to the ID photo step, otherwise set `ID_VER` and
grant the rank (non-silent, admin channel). -/
def state_await_code (ctx : Ctx) (now userId : Nat) (cur md : MemberData)
    (received_code : String) : StepRes :=
  let expected_code := get_code ctx userId md.ver_time
  if received_code ≠ expected_code then
    { md := cur, eff := [Effect.dmMember MSG_WRONG_CODE], err := none }
  else
    let cur1 := { cur with email_verified := true, ver_time := now }
    match md.zid with
    | none =>
      let r := proc_request_id cur1
      { md := r.1, eff := r.2, err := none }
    | some _ =>
      let cur2 := { cur1 with id_verified := true }
      { md := cur2, eff := proc_grant_rank Effect.adminMsg userId false, err := none }

/-- Source: `proc_forward_id_admins(db, member, admin_channel, member_data,
attachments)` (decorated `_next_state(State.AWAIT_APPROVAL)`): post the
attachments with instructions to the admin channel, record the posted
message id in `ID_MESSAGE`, confirm to the member, then enter
`AWAIT_APPROVAL`. -/
def proc_forward_id_admins (ctx : Ctx) (userId : Nat) (cur md : MemberData) :
    StepRes :=
  let cur1 := { cur with id_message := some ctx.adminMsgId }
  { md := { cur1 with ver_state := some State.AWAIT_APPROVAL }
    eff := [Effect.adminMsg (MSG_FORWARD_ADMIN userId md.full_name),
            Effect.dmMember MSG_FORWARDED]
    err := none }

/-- Source: `state_await_id(db, admin_channel, member, member_data,
attachments)`: with no attachments re-prompt, otherwise forward to the
admins.  Attachments are modelled by opaque ids. -/
def state_await_id (ctx : Ctx) (userId : Nat) (cur md : MemberData)
    (attachments : List Nat) : StepRes :=
  if attachments.length = 0 then
    { md := cur, eff := [Effect.dmMember MSG_NO_ATTACHMENTS], err := none }
  else
    proc_forward_id_admins ctx userId cur md

/-! ### Entry points -/

/-- Source: `proc_begin(invoke_message, db, ver_role, admin_channel,
member)`, `iam/verify.py` lines 190-251.

* No record: create the default record, reply, and run `proc_request_name`.
* Record with `ID_VER` true: the source calls
  `proc_grant_rank(ver_role, admin_channel, member, silent=True)` - one
  required positional argument short (`member` lands in the
  `join_announce_channel` parameter), so Python raises `TypeError` at this
  call and neither the role grant nor the two follow-up messages happen;
  modelled as `PyErr.typeError` with no effects.
* Record with a non-null `VER_STATE`: tell the member to use `!restart`.
* Otherwise: if the member has exhausted `MAX_EMAIL_ATTEMPTS`, grant 2
  more; then reply and run `proc_request_name`. -/
def proc_begin (now : Nat) (db : Option MemberData) : Res :=
  match db with
  | none =>
    let r := proc_request_name (make_def_member_data now)
    { db := some r.1, eff := Effect.replyInvoker MSG_CHECK_DMS :: r.2, err := none }
  | some md =>
    if md.id_verified then
      { db := some md, eff := [], err := some PyErr.typeError }
    else if md.ver_state.isSome then
      { db := some md, eff := [Effect.dmMember MSG_ALREADY_UNDERGOING], err := none }
    else
      let md1 :=
        if md.email_attempts ≥ md.max_email_attempts then
          { md with max_email_attempts := md.max_email_attempts + 2 }
        else md
      let r := proc_request_name md1
      { db := some r.1, eff := Effect.replyInvoker MSG_CHECK_DMS :: r.2, err := none }

/-- Source: `proc_restart(db, user)`, `iam/verify.py` lines 254-286:
reject when the record is absent, already ID-verified, has a null state, or
is in `AWAIT_ID`/`AWAIT_APPROVAL`; otherwise null the state with a fresh
`VER_TIME` and run `proc_request_name`. -/
def proc_restart (now : Nat) (db : Option MemberData) : Res :=
  match db with
  | none =>
    { db := none, eff := [Effect.dmMember MSG_NOT_BEING_VERIFIED], err := none }
  | some md =>
    if md.id_verified then
      { db := some md, eff := [Effect.dmMember MSG_ALREADY_VERIFIED], err := none }
    else
      match md.ver_state with
      | none =>
        { db := some md, eff := [Effect.dmMember MSG_NOT_BEING_VERIFIED], err := none }
      | some s =>
        if s = State.AWAIT_ID ∨ s = State.AWAIT_APPROVAL then
          { db := some md, eff := [Effect.dmMember MSG_NO_RESTART_AFTER_EMAIL],
            err := none }
        else
          let md1 := { md with ver_state := none, ver_time := now }
          let r := proc_request_name md1
          { db := some r.1, eff := r.2, err := none }

/-! ### Moderator override handlers -/

/-- Outcome of a pre-execution check (`CheckResult` in `iam/hooks.py`). -/
structure CheckResult where
  ok : Bool
  msg : Option String
  deriving DecidableEq, Repr

/-- Source: `_awaiting_approval(db, ctx, member)`, `iam/verify.py` lines
112-133: absent record, already-verified member, and any state other than
`AWAIT_APPROVAL` each fail with their own reason. -/
def awaiting_approval_check (db : Option MemberData) : CheckResult :=
  match db with
  | none => { ok := false, msg := some MSG_USER_NOT_BEING_VERIFIED }
  | some md =>
    if md.id_verified then
      { ok := false, msg := some MSG_USER_ALREADY_VERIFIED }
    else if md.ver_state ≠ some State.AWAIT_APPROVAL then
      { ok := false, msg := some MSG_USER_NOT_AWAITING_APPROVAL }
    else
      { ok := true, msg := none }

/-- Source: `proc_exec_approve(db, channel, member, join_announce_channel,
exec, ver_role)` guarded by `@pre(check(_awaiting_approval, notify=True))`:
on check failure the decorator raises `CheckFailed(channel, err_msg)` and
the body never runs; on success set `ID_VER` and `VER_EXEC` and grant the
rank (the invoking channel stands in the `admin_channel` position). -/
def proc_exec_approve (db : Option MemberData) (execId userId : Nat) : Res :=
  let c := awaiting_approval_check db
  if c.ok then
    match db with
    | some md =>
      { db := some { md with id_verified := true, verifying_exec := some execId }
        eff := proc_grant_rank Effect.channelMsg userId false
        err := none }
    | none => { db := none, eff := [], err := none }
  else
    { db := db, eff := [], err := some (PyErr.checkFailed (c.msg.getD "")) }

/-- Source: `proc_exec_reject(db, channel, member, reason)` guarded by
`@pre(check(_awaiting_approval, notify=True))`: on success only `VER_STATE`
is patched to null, the member is DMed the reason with a restart
instruction, and the invoking channel is notified. -/
def proc_exec_reject (db : Option MemberData) (userId : Nat) (reason : String) :
    Res :=
  let c := awaiting_approval_check db
  if c.ok then
    match db with
    | some md =>
      { db := some { md with ver_state := none }
        eff := [Effect.dmMember (MSG_REJECT_DM reason),
                Effect.channelMsg (MSG_REJECT_CHANNEL userId)]
        err := none }
    | none => { db := none, eff := [], err := none }
  else
    { db := db, eff := [], err := some (PyErr.checkFailed (c.msg.getD "")) }

/-! ### Message dispatcher and member-issued operations -/

/-- Source: `Verify.proc_handle_state(self, member, message)`, `iam/verify.py`
lines 1160-1206: absent record or `ID_VER` true means no handler runs; the
`AWAIT_APPROVAL` handler (`state_await_approval`) does nothing.  The
message is its content plus the list of attachments. -/
def proc_handle_state (ctx : Ctx) (now userId : Nat) (db : Option MemberData)
    (content : String) (attachments : List Nat) : Res :=
  match db with
  | none => { db := none, eff := [], err := none }
  | some md =>
    if ¬ md.id_verified then
      match md.ver_state with
      | some State.AWAIT_NAME => (state_await_name md content).toRes
      | some State.AWAIT_UNSW => (state_await_unsw md content).toRes
      | some State.AWAIT_ZID => (state_await_zid ctx userId md md content).toRes
      | some State.AWAIT_EMAIL => (state_await_email ctx userId md md content).toRes
      | some State.AWAIT_CODE => (state_await_code ctx now userId md md content).toRes
      | some State.AWAIT_ID => (state_await_id ctx userId md md attachments).toRes
      | some State.AWAIT_APPROVAL => { db := some md, eff := [], err := none }
      | none => { db := some md, eff := [], err := none }
    else
      { db := some md, eff := [], err := none }

/-- Source: `is_verifying_user(cog, ctx)`, `iam/verify.py` lines 148-169. -/
def is_verifying_user (db : Option MemberData) : Bool × Option String :=
  match db with
  | none => (false, some MSG_NOT_BEING_VERIFIED)
  | some md =>
    if md.ver_state = none then (false, some MSG_NOT_BEING_VERIFIED)
    else if md.id_verified then (false, some MSG_ALREADY_VERIFIED)
    else (true, none)

/-- Source: `Verify.cmd_resend`: gated by `check(is_verifying_user)` (without
`notify`, so a failed check silently blocks the call); on success fetch the
member's data and run `proc_resend_email`.  The channel/role gates
(`in_dm_channel`, `is_guild_member`, `is_unverified_user`) live outside the
database model and are taken as passing. -/
def cmd_resend (ctx : Ctx) (userId : Nat) (db : Option MemberData) : Res :=
  match db with
  | none => { db := none, eff := [], err := none }
  | some md =>
    if (is_verifying_user (some md)).1 then
      (proc_resend_email ctx userId md md).toRes
    else
      { db := some md, eff := [], err := none }

/-- Member-issued operations: the `!verify` command (`proc_begin` via
`cmd_verify`), `!restart`, `!resend`, and a plain DM routed to
`proc_handle_state` by `on_message`. -/
inductive MemberOp
  | verifyCmd
  | restartCmd
  | resendCmd
  | dm (content : String) (attachments : List Nat)
  deriving DecidableEq, Repr

/-- One member-issued event, stamped with the `time()` value at which it is
handled. -/
def member_step (ctx : Ctx) (userId : Nat) (db : Option MemberData) :
    Nat × MemberOp → Res
  | (now, MemberOp.verifyCmd) => proc_begin now db
  | (now, MemberOp.restartCmd) => proc_restart now db
  | (_, MemberOp.resendCmd) => cmd_resend ctx userId db
  | (now, MemberOp.dm c a) => proc_handle_state ctx now userId db c a

/-- Run a sequence of member-issued events, accumulating all effects.  An
exception escaping one event does not stop later events (each event is
handled independently by the bot's event loop). -/
def run_member_ops (ctx : Ctx) (userId : Nat) (db : Option MemberData) :
    List (Nat × MemberOp) → Option MemberData × List Effect
  | [] => (db, [])
  | e :: rest =>
    let r := member_step ctx userId db e
    let rec_ := run_member_ops ctx userId r.db rest
    (rec_.1, r.eff ++ rec_.2)

/-! ### Concrete fixtures used by witnesses and counterexamples -/

/-- Concrete context whose keyed hash is the identity on the message (an
injective model of the hexdigest), with a working mailer. -/
def ctxEx : Ctx :=
  { hmacHex := fun _ m => m, secret := [], mailOk := true, adminMsgId := 77 }

/-- Concrete context whose mailer raises `MailError` on every send. -/
def ctxMailFail : Ctx :=
  { hmacHex := fun _ m => m, secret := [], mailOk := false, adminMsgId := 77 }

/-- Concrete context whose keyed hash always returns a 64-character digest. -/
def ctxLen : Ctx :=
  { hmacHex := fun _ _ => String.mk (List.replicate 64 'a'), secret := [],
    mailOk := true, adminMsgId := 77 }

/-- Record of a member who completed verification in the past. -/
def mdVerified : MemberData :=
  { full_name := some "Jane Doe", zid := none, email := some "jane@example.com",
    email_verified := true, id_message := none, id_verified := true,
    verifying_exec := none, ver_state := none, ver_time := 40,
    email_attempts := 1, max_email_attempts := 3 }

/-- Record of a non-UNSW member waiting in `AWAIT_CODE` with nonce 100 and
one email already sent. -/
def mdAwaitCode : MemberData :=
  { full_name := some "Jane Doe", zid := none, email := some "jane@example.com",
    email_verified := false, id_message := none, id_verified := false,
    verifying_exec := none, ver_state := some State.AWAIT_CODE, ver_time := 100,
    email_attempts := 1, max_email_attempts := 3 }

/-- Record of a member with a null state (as left by a moderator rejection)
who has exhausted the email send limit. -/
def mdExhausted : MemberData :=
  { full_name := some "Jane Doe", zid := none, email := some "jane@example.com",
    email_verified := false, id_message := none, id_verified := false,
    verifying_exec := none, ver_state := none, ver_time := 50,
    email_attempts := 3, max_email_attempts := 3 }

/-- Record of a member awaiting moderator approval. -/
def mdApproval : MemberData :=
  { full_name := some "Jane Doe", zid := none, email := some "jane@example.com",
    email_verified := true, id_message := some 77, id_verified := false,
    verifying_exec := none, ver_state := some State.AWAIT_APPROVAL, ver_time := 100,
    email_attempts := 1, max_email_attempts := 3 }

/-! ### Claim C2 -/

/-- C2: the claim says that `begin` for a member whose record has
`identity_verified == true` re-grants the verified role, DMs a welcome-back
message, notifies the moderation channel and completes without raising.
The code instead raises `TypeError`: `proc_begin` calls
`proc_grant_rank(ver_role, admin_channel, member, silent=True)`, one
required positional argument short, so nothing is granted or sent and the
record is unchanged. -/
theorem c2_begin_already_verified_raises (now : Nat) (md : MemberData)
    (h : md.id_verified = true) :
    proc_begin now (some md) =
      { db := some md, eff := [], err := some PyErr.typeError } := by
  simp [proc_begin, h]

/-- C2 witness: the `TypeError` outcome at a concrete already-verified
record. -/
theorem c2_begin_already_verified_raises_witness :
    mdVerified.id_verified = true ∧
    proc_begin 60 (some mdVerified) =
      { db := some mdVerified, eff := [], err := some PyErr.typeError } :=
  ⟨rfl, c2_begin_already_verified_raises 60 mdVerified rfl⟩

/-! ### Claim C10 -/

/-- C10: for a member whose stored record has `id_verified == true`, and for
a member with no record at all, `proc_handle_state` performs no action: no
state handler runs, the record is not mutated and no message is sent,
whatever the message content, attachments or stored state. -/
theorem c10_handle_state_verified_noop (ctx : Ctx) (now userId : Nat)
    (content : String) (attachments : List Nat) (md : MemberData)
    (h : md.id_verified = true) :
    proc_handle_state ctx now userId none content attachments =
      { db := none, eff := [], err := none } ∧
    proc_handle_state ctx now userId (some md) content attachments =
      { db := some md, eff := [], err := none } := by
  refine ⟨rfl, ?_⟩
  simp [proc_handle_state, h]

/-- C10 witness: concrete no-op runs of the dispatcher. -/
theorem c10_handle_state_verified_noop_witness :
    mdVerified.id_verified = true ∧
    proc_handle_state ctxEx 200 7 none "hello" [1] =
      { db := none, eff := [], err := none } ∧
    proc_handle_state ctxEx 200 7 (some mdVerified) "hello" [1] =
      { db := some mdVerified, eff := [], err := none } := by
  have h := c10_handle_state_verified_noop ctxEx 200 7 "hello" [1] mdVerified rfl
  exact ⟨rfl, h.1, h.2⟩

/-! ### Claim C4 -/

/-- C4: email dispatch invoked with `email_send_count >= email_send_limit`
refuses: no mailer call, no increment, no state change, and the member is
told to contact a moderator; moreover from
`email_send_count == email_send_limit - 1` one successful send brings the
counter exactly to the limit and the following dispatch attempt is refused.
The hypothesis `hmax` records that the caller's snapshot and the current
record agree on the limit (they always do in the source: no call site
changes `MAX_EMAIL_ATTEMPTS` between the snapshot and the call). -/
theorem c4_rate_limit (ctx : Ctx) (userId : Nat) (cur md : MemberData)
    (email email2 : Option String)
    (hmax : cur.max_email_attempts = md.max_email_attempts) :
    (md.email_attempts ≥ md.max_email_attempts →
      proc_send_email ctx userId cur md email =
        { md := cur, eff := [Effect.dmMember MSG_TOO_MANY_EMAILS], err := none }) ∧
    (md.email_attempts + 1 = md.max_email_attempts → ctx.mailOk = true →
      (proc_send_email ctx userId cur md email).md.email_attempts =
        md.max_email_attempts ∧
      proc_send_email ctx userId
          (proc_send_email ctx userId cur md email).md
          (proc_send_email ctx userId cur md email).md email2 =
        { md := (proc_send_email ctx userId cur md email).md,
          eff := [Effect.dmMember MSG_TOO_MANY_EMAILS], err := none }) := by
  constructor
  · intro h
    simp [proc_send_email, h]
  · intro h hok
    have hlt : ¬ md.email_attempts ≥ md.max_email_attempts := by omega
    constructor
    · simp [proc_send_email, hlt, hok, proc_request_code]
      omega
    · have hmd : (proc_send_email ctx userId cur md email).md =
          { cur with email_attempts := md.email_attempts + 1,
                     ver_state := some State.AWAIT_CODE } := by
        simp [proc_send_email, hlt, hok, proc_request_code]
      rw [hmd]
      have : ({ cur with email_attempts := md.email_attempts + 1,
                          ver_state := some State.AWAIT_CODE } : MemberData).email_attempts ≥
             ({ cur with email_attempts := md.email_attempts + 1,
                         ver_state := some State.AWAIT_CODE } : MemberData).max_email_attempts := by
        simp [hmax]
        omega
      simp [proc_send_email, this]

/-- C4 witness: the refusal at the limit and the boundary behaviour, at a
concrete record one send below the limit. -/
theorem c4_rate_limit_witness :
    mdExhausted.email_attempts ≥ mdExhausted.max_email_attempts ∧
    proc_send_email ctxEx 7 mdExhausted mdExhausted (some "jane@example.com") =
      { md := mdExhausted, eff := [Effect.dmMember MSG_TOO_MANY_EMAILS],
        err := none } ∧
    mdAwaitCode.email_attempts + 2 = mdAwaitCode.max_email_attempts ∧
    (proc_send_email ctxEx 7
        { mdAwaitCode with email_attempts := 2 }
        { mdAwaitCode with email_attempts := 2 }
        (some "jane@example.com")).md.email_attempts =
      mdAwaitCode.max_email_attempts ∧
    proc_send_email ctxEx 7
        (proc_send_email ctxEx 7 { mdAwaitCode with email_attempts := 2 }
          { mdAwaitCode with email_attempts := 2 } (some "jane@example.com")).md
        (proc_send_email ctxEx 7 { mdAwaitCode with email_attempts := 2 }
          { mdAwaitCode with email_attempts := 2 } (some "jane@example.com")).md
        (some "jane@example.com") =
      { md := (proc_send_email ctxEx 7 { mdAwaitCode with email_attempts := 2 }
          { mdAwaitCode with email_attempts := 2 } (some "jane@example.com")).md,
        eff := [Effect.dmMember MSG_TOO_MANY_EMAILS], err := none } := by
  have h1 := (c4_rate_limit ctxEx 7 mdExhausted mdExhausted
    (some "jane@example.com") (some "jane@example.com") rfl).1 (by decide)
  have h2 := (c4_rate_limit ctxEx 7 { mdAwaitCode with email_attempts := 2 }
    { mdAwaitCode with email_attempts := 2 }
    (some "jane@example.com") (some "jane@example.com") rfl).2 (by decide) rfl
  exact ⟨by decide, h1, by decide, h2.1, h2.2⟩

/-! ### Claim C5 -/

/-- C5: the claim says that below the limit a mailer failure leaves the
record unchanged and DMs the member a generic error, while a successful
delivery increments the counter by one and moves to `AWAIT_CODE`.  The
success half matches the code, and on failure the record is indeed
unchanged, but the member never receives the generic error: the handler
runs `err.notify()` on the caught `MailError`, which has no `notify`
method (it defines `def_handler`), so `AttributeError` is raised before
the DM - the result carries `PyErr.attributeError` and no `dmMember`
effect. -/
theorem c5_mail_failure_and_success (ctx : Ctx) (userId : Nat)
    (cur md : MemberData) (email : Option String)
    (hlt : md.email_attempts < md.max_email_attempts) :
    (ctx.mailOk = false →
      proc_send_email ctx userId cur md email =
        { md := cur,
          eff := [Effect.mailSend email MAIL_SUBJECT
            ("Your code is " ++ get_code ctx userId md.ver_time)],
          err := some PyErr.attributeError }) ∧
    (ctx.mailOk = true →
      proc_send_email ctx userId cur md email =
        { md := { cur with email_attempts := md.email_attempts + 1,
                           ver_state := some State.AWAIT_CODE },
          eff := [Effect.mailSend email MAIL_SUBJECT
            ("Your code is " ++ get_code ctx userId md.ver_time),
            Effect.dmMember MSG_CODE_PROMPT],
          err := none }) := by
  have h : ¬ md.email_attempts ≥ md.max_email_attempts := by omega
  constructor
  · intro hok
    simp [proc_send_email, h, hok]
  · intro hok
    simp [proc_send_email, h, hok, proc_request_code]

/-- C5 witness: a concrete failing send (record unchanged, `AttributeError`,
no DM) and a concrete successful send. -/
theorem c5_mail_failure_and_success_witness :
    mdAwaitCode.email_attempts < mdAwaitCode.max_email_attempts ∧
    proc_send_email ctxMailFail 7 mdAwaitCode mdAwaitCode
        (some "jane@example.com") =
      { md := mdAwaitCode,
        eff := [Effect.mailSend (some "jane@example.com") MAIL_SUBJECT
          ("Your code is " ++ get_code ctxMailFail 7 100)],
        err := some PyErr.attributeError } ∧
    proc_send_email ctxEx 7 mdAwaitCode mdAwaitCode (some "jane@example.com") =
      { md := { mdAwaitCode with email_attempts := 2,
                                   ver_state := some State.AWAIT_CODE },
        eff := [Effect.mailSend (some "jane@example.com") MAIL_SUBJECT
          ("Your code is " ++ get_code ctxEx 7 100),
          Effect.dmMember MSG_CODE_PROMPT],
        err := none } := by
  have h1 := (c5_mail_failure_and_success ctxMailFail 7 mdAwaitCode mdAwaitCode
    (some "jane@example.com") (by decide)).1 rfl
  have h2 := (c5_mail_failure_and_success ctxEx 7 mdAwaitCode mdAwaitCode
    (some "jane@example.com") (by decide)).2 rfl
  exact ⟨by decide, h1, h2⟩

/-! ### Claim C7 -/

/-- C7: `approve` and `reject` succeed exactly when the target record exists
with `state == AWAIT_APPROVAL` and `identity_verified == false`; otherwise
each fails with the matching distinct reason (absent record: "not currently
being verified"; verified: "already verified"; any other state: "not
awaiting approval") raised through `CheckFailed`, and on failure the record
is not mutated and no role is granted (no effects at all). -/
theorem c7_approve_reject_preconditions (db : Option MemberData)
    (execId userId : Nat) (reason : String) :
    (db = none →
      proc_exec_approve db execId userId =
        { db := none, eff := [],
          err := some (PyErr.checkFailed MSG_USER_NOT_BEING_VERIFIED) } ∧
      proc_exec_reject db userId reason =
        { db := none, eff := [],
          err := some (PyErr.checkFailed MSG_USER_NOT_BEING_VERIFIED) }) ∧
    (∀ md, db = some md → md.id_verified = true →
      proc_exec_approve db execId userId =
        { db := some md, eff := [],
          err := some (PyErr.checkFailed MSG_USER_ALREADY_VERIFIED) } ∧
      proc_exec_reject db userId reason =
        { db := some md, eff := [],
          err := some (PyErr.checkFailed MSG_USER_ALREADY_VERIFIED) }) ∧
    (∀ md, db = some md → md.id_verified = false →
      md.ver_state ≠ some State.AWAIT_APPROVAL →
      proc_exec_approve db execId userId =
        { db := some md, eff := [],
          err := some (PyErr.checkFailed MSG_USER_NOT_AWAITING_APPROVAL) } ∧
      proc_exec_reject db userId reason =
        { db := some md, eff := [],
          err := some (PyErr.checkFailed MSG_USER_NOT_AWAITING_APPROVAL) }) ∧
    (∀ md, db = some md → md.id_verified = false →
      md.ver_state = some State.AWAIT_APPROVAL →
      proc_exec_approve db execId userId =
        { db := some { md with id_verified := true,
                               verifying_exec := some execId }
          eff := proc_grant_rank Effect.channelMsg userId false
          err := none } ∧
      proc_exec_reject db userId reason =
        { db := some { md with ver_state := none }
          eff := [Effect.dmMember (MSG_REJECT_DM reason),
                  Effect.channelMsg (MSG_REJECT_CHANNEL userId)]
          err := none }) := by
  refine ⟨?_, ?_, ?_, ?_⟩
  · rintro rfl
    exact ⟨rfl, rfl⟩
  · rintro md rfl hv
    constructor
    · simp [proc_exec_approve, awaiting_approval_check, hv]
    · simp [proc_exec_reject, awaiting_approval_check, hv]
  · rintro md rfl hv hst
    constructor
    · simp [proc_exec_approve, awaiting_approval_check, hv, hst]
    · simp [proc_exec_reject, awaiting_approval_check, hv, hst]
  · rintro md rfl hv hst
    constructor
    · simp [proc_exec_approve, awaiting_approval_check, hv, hst]
    · simp [proc_exec_reject, awaiting_approval_check, hv, hst]

/-- C7 witness: all four cases at concrete records. -/
theorem c7_approve_reject_preconditions_witness :
    proc_exec_approve none 9 7 =
      { db := none, eff := [],
        err := some (PyErr.checkFailed MSG_USER_NOT_BEING_VERIFIED) } ∧
    proc_exec_approve (some mdVerified) 9 7 =
      { db := some mdVerified, eff := [],
        err := some (PyErr.checkFailed MSG_USER_ALREADY_VERIFIED) } ∧
    proc_exec_reject (some mdAwaitCode) 7 "blurry" =
      { db := some mdAwaitCode, eff := [],
        err := some (PyErr.checkFailed MSG_USER_NOT_AWAITING_APPROVAL) } ∧
    proc_exec_approve (some mdApproval) 9 7 =
      { db := some { mdApproval with id_verified := true,
                                     verifying_exec := some 9 }
        eff := proc_grant_rank Effect.channelMsg 7 false
        err := none } := by
  have h1 := (c7_approve_reject_preconditions none 9 7 "blurry").1 rfl
  have h2 := (c7_approve_reject_preconditions (some mdVerified) 9 7 "blurry").2.1
    mdVerified rfl rfl
  have h3 := (c7_approve_reject_preconditions (some mdAwaitCode) 9 7 "blurry").2.2.1
    mdAwaitCode rfl rfl (by decide)
  have h4 := (c7_approve_reject_preconditions (some mdApproval) 9 7 "blurry").2.2.2
    mdApproval rfl rfl rfl
  exact ⟨h1.1, h2.1, h3.2, h4.1⟩

/-! ### Claim C8 -/

/-- C8: a successful `reject` of a member awaiting approval only nulls the
`state` field: the record is kept (not deleted), `identity_verified` stays
false, and every other field - name, zID, email, `email_verified`,
`id_message`, `verifying_exec`, `ver_time` and both email attempt
counters - is unchanged; the member is DMed the supplied reason plus a
restart instruction and the invoking moderation channel is notified. -/
theorem c8_reject_resets_only_state (md : MemberData) (userId : Nat)
    (reason : String) (hst : md.ver_state = some State.AWAIT_APPROVAL)
    (hv : md.id_verified = false) :
    proc_exec_reject (some md) userId reason =
      { db := some { md with ver_state := none }
        eff := [Effect.dmMember (MSG_REJECT_DM reason),
                Effect.channelMsg (MSG_REJECT_CHANNEL userId)]
        err := none } ∧
    ({ md with ver_state := none } : MemberData).id_verified = false ∧
    ({ md with ver_state := none } : MemberData).full_name = md.full_name ∧
    ({ md with ver_state := none } : MemberData).zid = md.zid ∧
    ({ md with ver_state := none } : MemberData).email = md.email ∧
    ({ md with ver_state := none } : MemberData).email_verified = md.email_verified ∧
    ({ md with ver_state := none } : MemberData).id_message = md.id_message ∧
    ({ md with ver_state := none } : MemberData).verifying_exec = md.verifying_exec ∧
    ({ md with ver_state := none } : MemberData).ver_time = md.ver_time ∧
    ({ md with ver_state := none } : MemberData).email_attempts = md.email_attempts ∧
    ({ md with ver_state := none } : MemberData).max_email_attempts =
      md.max_email_attempts := by
  refine ⟨?_, hv, rfl, rfl, rfl, rfl, rfl, rfl, rfl, rfl, rfl⟩
  simp [proc_exec_reject, awaiting_approval_check, hv, hst]

/-- C8 witness: a concrete rejection of a member awaiting approval. -/
theorem c8_reject_resets_only_state_witness :
    proc_exec_reject (some mdApproval) 7 "photo unclear" =
      { db := some { mdApproval with ver_state := none }
        eff := [Effect.dmMember (MSG_REJECT_DM "photo unclear"),
                Effect.channelMsg (MSG_REJECT_CHANNEL 7)]
        err := none } ∧
    ({ mdApproval with ver_state := none } : MemberData).id_verified = false :=
  ⟨(c8_reject_resets_only_state mdApproval 7 "photo unclear" rfl rfl).1,
   (c8_reject_resets_only_state mdApproval 7 "photo unclear" rfl rfl).2.1⟩

/-! ### Claim C9 -/

/-- C9: `restart` from any state `AWAIT_NAME` through `AWAIT_CODE` sets the
state to `AWAIT_NAME` with the timestamp of the call (hence ≥ the call
time) while preserving both email attempt counters; it is rejected without
mutation when the record is absent or the state is null ("not currently
being verified"), when the member is verified ("already verified"), and
from `AWAIT_ID` and `AWAIT_APPROVAL`. -/
theorem c9_restart_cases (now : Nat) (md : MemberData) :
    (proc_restart now none =
      { db := none, eff := [Effect.dmMember MSG_NOT_BEING_VERIFIED],
        err := none }) ∧
    (md.id_verified = true →
      proc_restart now (some md) =
        { db := some md, eff := [Effect.dmMember MSG_ALREADY_VERIFIED],
          err := none }) ∧
    (md.id_verified = false → md.ver_state = none →
      proc_restart now (some md) =
        { db := some md, eff := [Effect.dmMember MSG_NOT_BEING_VERIFIED],
          err := none }) ∧
    (md.id_verified = false →
      (md.ver_state = some State.AWAIT_ID ∨
       md.ver_state = some State.AWAIT_APPROVAL) →
      proc_restart now (some md) =
        { db := some md, eff := [Effect.dmMember MSG_NO_RESTART_AFTER_EMAIL],
          err := none }) ∧
    (∀ s, md.id_verified = false → md.ver_state = some s →
      s ≠ State.AWAIT_ID → s ≠ State.AWAIT_APPROVAL →
      proc_restart now (some md) =
        { db := some { md with ver_state := some State.AWAIT_NAME,
                               ver_time := now }
          eff := [Effect.dmMember MSG_NAME_PROMPT]
          err := none } ∧
      now ≤ ({ md with ver_state := some State.AWAIT_NAME,
                       ver_time := now } : MemberData).ver_time ∧
      ({ md with ver_state := some State.AWAIT_NAME,
                 ver_time := now } : MemberData).email_attempts = md.email_attempts ∧
      ({ md with ver_state := some State.AWAIT_NAME,
                 ver_time := now } : MemberData).max_email_attempts =
        md.max_email_attempts) := by
  refine ⟨rfl, ?_, ?_, ?_, ?_⟩
  · intro hv
    simp [proc_restart, hv]
  · intro hv hst
    simp [proc_restart, hv, hst]
  · intro hv hst
    rcases hst with hst | hst <;> simp [proc_restart, hv, hst]
  · intro s hv hst hid happ
    refine ⟨?_, Nat.le_refl now, rfl, rfl⟩
    have hne : ¬ (s = State.AWAIT_ID ∨ s = State.AWAIT_APPROVAL) := by
      simp [hid, happ]
    simp [proc_restart, hv, hst, hne, proc_request_name]

/-- C9 witness: concrete runs of every restart case. -/
theorem c9_restart_cases_witness :
    proc_restart 200 none =
      { db := none, eff := [Effect.dmMember MSG_NOT_BEING_VERIFIED],
        err := none } ∧
    proc_restart 200 (some mdVerified) =
      { db := some mdVerified, eff := [Effect.dmMember MSG_ALREADY_VERIFIED],
        err := none } ∧
    proc_restart 200 (some mdExhausted) =
      { db := some mdExhausted, eff := [Effect.dmMember MSG_NOT_BEING_VERIFIED],
        err := none } ∧
    proc_restart 200 (some mdApproval) =
      { db := some mdApproval,
        eff := [Effect.dmMember MSG_NO_RESTART_AFTER_EMAIL], err := none } ∧
    proc_restart 200 (some mdAwaitCode) =
      { db := some { mdAwaitCode with ver_state := some State.AWAIT_NAME,
                                      ver_time := 200 }
        eff := [Effect.dmMember MSG_NAME_PROMPT]
        err := none } := by
  refine ⟨(c9_restart_cases 200 mdAwaitCode).1, ?_, ?_, ?_, ?_⟩
  · exact (c9_restart_cases 200 mdVerified).2.1 rfl
  · exact (c9_restart_cases 200 mdExhausted).2.2.1 rfl rfl
  · exact (c9_restart_cases 200 mdApproval).2.2.2.1 rfl (Or.inr rfl)
  · exact ((c9_restart_cases 200 mdAwaitCode).2.2.2.2 State.AWAIT_CODE rfl rfl
      (by decide) (by decide)).1

/-! ### Claim C1 -/

/-- C1 counterexample: the claim says a resend refreshes the nonce, so that
a code generated for an earlier dispatch attempt in the same cycle no
longer passes the `AWAIT_CODE` comparison.  Concretely for member 7 whose
record `mdAwaitCode` has nonce (`VER_TIME`) 100: a resend goes out (the
mailer is called) but leaves `VER_TIME` at 100, and the code of the
earlier dispatch, `get_code ctxEx 7 100`, is still accepted afterwards
(`EMAIL_VER` becomes true). -/
theorem c1_stale_code_counterexample :
    (proc_resend_email ctxEx 7 mdAwaitCode mdAwaitCode).eff.any
      Effect.isMailSend = true ∧
    (proc_resend_email ctxEx 7 mdAwaitCode mdAwaitCode).md.ver_time = 100 ∧
    (state_await_code ctxEx 200 7
      (proc_resend_email ctxEx 7 mdAwaitCode mdAwaitCode).md
      (proc_resend_email ctxEx 7 mdAwaitCode mdAwaitCode).md
      (get_code ctxEx 7 100)).md.email_verified = true := by
  refine ⟨rfl, rfl, ?_⟩
  decide

/-- C1 (amended): the nonce used for every dispatch is the record's
`state_entered_at` (`VER_TIME`), which is written at cycle entry (record
creation or restart) and refreshed on a successful code check, but is NOT
refreshed by a (re)send; hence all dispatch attempts within one cycle use
the same nonce and a code generated for an earlier dispatch attempt in
the same cycle still passes the `AWAIT_CODE` comparison after a resend. -/
theorem c1_nonce_constant_within_cycle (ctx : Ctx) (now userId : Nat)
    (md : MemberData) (hok : ctx.mailOk = true) (hv : md.id_verified = false)
    (hst : md.ver_state = some State.AWAIT_CODE)
    (hlt : md.email_attempts < md.max_email_attempts) :
    (proc_resend_email ctx userId md md).md.ver_time = md.ver_time ∧
    Effect.mailSend md.email MAIL_SUBJECT
        ("Your code is " ++ get_code ctx userId md.ver_time) ∈
      (proc_resend_email ctx userId md md).eff ∧
    (state_await_code ctx now userId
      (proc_resend_email ctx userId md md).md
      (proc_resend_email ctx userId md md).md
      (get_code ctx userId md.ver_time)).md.email_verified = true := by
  have hge : ¬ md.email_attempts ≥ md.max_email_attempts := by omega
  have hcond : (¬ md.id_verified ∧ md.ver_state = some State.AWAIT_CODE) := by
    simp [hv, hst]
  have hres : proc_resend_email ctx userId md md =
      { md := { md with email_attempts := md.email_attempts + 1,
                        ver_state := some State.AWAIT_CODE }
        eff := [Effect.mailSend md.email MAIL_SUBJECT
          ("Your code is " ++ get_code ctx userId md.ver_time),
          Effect.dmMember MSG_CODE_PROMPT]
        err := none } := by
    simp [proc_resend_email, hcond, proc_send_email, hge, hok, proc_request_code]
  rw [hres]
  refine ⟨rfl, by simp, ?_⟩
  unfold state_await_code
  simp only [get_code]
  cases hzid : md.zid <;> simp [hzid, proc_request_id]

/-- C1 witness: the amended statement at a concrete record and context. -/
theorem c1_nonce_constant_within_cycle_witness :
    ctxEx.mailOk = true ∧ mdAwaitCode.id_verified = false ∧
    mdAwaitCode.ver_state = some State.AWAIT_CODE ∧
    mdAwaitCode.email_attempts < mdAwaitCode.max_email_attempts ∧
    (proc_resend_email ctxEx 7 mdAwaitCode mdAwaitCode).md.ver_time =
      mdAwaitCode.ver_time ∧
    (state_await_code ctxEx 200 7
      (proc_resend_email ctxEx 7 mdAwaitCode mdAwaitCode).md
      (proc_resend_email ctxEx 7 mdAwaitCode mdAwaitCode).md
      (get_code ctxEx 7 mdAwaitCode.ver_time)).md.email_verified = true := by
  have h := c1_nonce_constant_within_cycle ctxEx 200 7 mdAwaitCode rfl rfl rfl
    (by decide)
  exact ⟨rfl, rfl, rfl, by decide, h.1, h.2.2⟩

/-! ### Claim C3 -/

/-- C3 counterexample: the claim says the code is a keyed hash over the
CONCATENATION of the member identity and the nonce; the source hashes
`str(user.id + noise)`, the decimal string of their SUM.  With the
identity keyed hash of `ctxEx`: for member 12 and nonce 3 the source code
(`"15"`) differs from the spec's concatenation code (`"123"`); and the
source's scheme identifies member 1 / nonce 2 with member 2 / nonce 1
(both hash `"3"`), which the concatenation scheme keeps apart. -/
theorem c3_hash_input_counterexample :
    get_code ctxEx 12 3 ≠ generate_code_spec ctxEx 12 3 ∧
    get_code ctxEx 1 2 = get_code ctxEx 2 1 ∧
    generate_code_spec ctxEx 1 2 ≠ generate_code_spec ctxEx 2 1 := by
  decide

/-- C3 (amended): `get_code` is deterministic and equals the keyed hash of
the decimal string of the SUM of the member identity and the nonce; the
`AWAIT_CODE` comparison accepts a submission exactly when it equals the
code for the stored nonce; under a collision-free model of the keyed hash
a code generated under a different nonce (for the same member and secret)
is rejected; and if the modelled hash returns fixed-length (64-character)
digests then so does `get_code`. -/
theorem c3_code_roundtrip (ctx : Ctx) (now userId n1 n2 : Nat)
    (cur md : MemberData) (received : String) :
    get_code ctx userId n1 = ctx.hmacHex ctx.secret (pyStr (userId + n1)) ∧
    (n1 = n2 → get_code ctx userId n1 = get_code ctx userId n2) ∧
    (cur.email_verified = false →
      ((state_await_code ctx now userId cur md received).md.email_verified =
          true ↔
        received = get_code ctx userId md.ver_time)) ∧
    ((∀ a b : Nat,
        ctx.hmacHex ctx.secret (pyStr a) = ctx.hmacHex ctx.secret (pyStr b) →
        a = b) →
      n1 ≠ n2 → md.ver_time = n2 →
      state_await_code ctx now userId cur md (get_code ctx userId n1) =
        { md := cur, eff := [Effect.dmMember MSG_WRONG_CODE], err := none }) ∧
    ((∀ s m, (ctx.hmacHex s m).length = 64) →
      (get_code ctx userId n1).length = 64) := by
  refine ⟨rfl, fun h => by rw [h], ?_, ?_, ?_⟩
  · intro hev
    constructor
    · intro hacc
      by_contra hne
      rw [state_await_code] at hacc
      simp only [if_pos hne] at hacc
      simp [hev] at hacc
    · intro heq
      unfold state_await_code
      simp only [heq, ne_eq, not_true_eq_false, if_false]
      cases hzid : md.zid <;> simp [hzid, proc_request_id]
  · intro hinj hne hvt
    have hcode : get_code ctx userId n1 ≠ get_code ctx userId md.ver_time := by
      intro h
      have := hinj _ _ h
      omega
    unfold state_await_code
    simp [hcode]
  · intro hlen
    exact hlen _ _

/-- C3 witness: determinism and acceptance at the stored nonce, rejection
of a code for a changed nonce (the identity hash of `ctxEx` is
collision-free because decimal strings are injective), and the
fixed-length conclusion under the constant-length hash of `ctxLen`. -/
theorem c3_code_roundtrip_witness :
    (state_await_code ctxEx 200 7 mdAwaitCode mdAwaitCode
        (get_code ctxEx 7 mdAwaitCode.ver_time)).md.email_verified = true ∧
    state_await_code ctxEx 200 7 mdAwaitCode mdAwaitCode
        (get_code ctxEx 7 5) =
      { md := mdAwaitCode, eff := [Effect.dmMember MSG_WRONG_CODE],
        err := none } ∧
    (get_code ctxLen 7 5).length = 64 := by
  have h := c3_code_roundtrip ctxEx 200 7 5 100 mdAwaitCode mdAwaitCode
    (get_code ctxEx 7 mdAwaitCode.ver_time)
  have hdet := h.2.1
  have hacc := (h.2.2.1 rfl).2 rfl
  have hrej := h.2.2.2.1 (fun a b hab => pyStr_injective hab) (by decide) rfl
  have hlen := (c3_code_roundtrip ctxLen 200 7 5 100 mdAwaitCode mdAwaitCode
    "x").2.2.2.2 (fun _ _ => rfl)
  exact ⟨hacc, hrej, hlen⟩

/-! ### Claim C6 -/

/-- Member-issued event sequence used in the C6 counterexample: `!verify`
followed by the name, the UNSW answer and a valid zID. -/
def opsC6 : List (Nat × MemberOp) :=
  [(60, MemberOp.verifyCmd), (61, MemberOp.dm "Jane Doe" []),
   (62, MemberOp.dm "y" []), (63, MemberOp.dm "z1234567" [])]

/-- C6 counterexample: the claim says the send limit is only ever increased
by explicit moderator action and that an exhausted member can never obtain
another verification email through member-issued operations alone.  But
for the exhausted record `mdExhausted` (3 of 3 sends used, `state` null as
a moderator rejection leaves it), the member-issued sequence `opsC6` makes
`proc_begin` itself raise the limit from 3 to 5, and a further
verification email goes out. -/
theorem c6_exhausted_counterexample :
    mdExhausted.email_attempts ≥ mdExhausted.max_email_attempts ∧
    (run_member_ops ctxEx 7 (some mdExhausted) opsC6).2.any
      Effect.isMailSend = true ∧
    (run_member_ops ctxEx 7 (some mdExhausted) opsC6).1.map
      MemberData.max_email_attempts = some 5 := by
  refine ⟨by decide, by decide, by decide⟩

/-- Invariant used for the amended C6: the member has exhausted the send
limit and the record is not in the post-rejection null-state shape (its
state is non-null, or the member is already verified). -/
def ExhaustedNoReset (md : MemberData) : Prop :=
  md.email_attempts ≥ md.max_email_attempts ∧
  (md.ver_state ≠ none ∨ md.id_verified = true)

/-- Helper: the grant effects contain no outgoing mail. -/
theorem grant_rank_no_mail (userId : Nat) :
    (proc_grant_rank Effect.adminMsg userId false).any Effect.isMailSend =
      false := rfl

/-- Helper for the amended C6: one member-issued event starting from an
exhausted record with non-null state (or a verified member) keeps the
record exhausted with the same limit, keeps the state non-null (or the
member verified), and sends no verification email. -/
theorem member_step_exhausted (ctx : Ctx) (userId : Nat) (md : MemberData)
    (e : Nat × MemberOp) (h : ExhaustedNoReset md) :
    ∃ md2, (member_step ctx userId (some md) e).db = some md2 ∧
      ExhaustedNoReset md2 ∧
      md2.max_email_attempts = md.max_email_attempts ∧
      (member_step ctx userId (some md) e).eff.any Effect.isMailSend = false := by
  obtain ⟨h1, h2⟩ := h
  obtain ⟨now, op⟩ := e
  cases op with
  | verifyCmd =>
    cases hv : md.id_verified with
    | true =>
      exact ⟨md, by simp [member_step, proc_begin, hv], ⟨h1, Or.inr hv⟩, rfl,
        by simp [member_step, proc_begin, hv]⟩
    | false =>
      have hst : md.ver_state ≠ none := by
        rcases h2 with h | h
        · exact h
        · rw [hv] at h; cases h
      have hsome : md.ver_state.isSome = true := Option.isSome_iff_ne_none.mpr hst
      exact ⟨md, by simp [member_step, proc_begin, hv, hsome], ⟨h1, Or.inl hst⟩,
        rfl, by simp [member_step, proc_begin, hv, hsome, Effect.isMailSend]⟩
  | restartCmd =>
    cases hv : md.id_verified with
    | true =>
      exact ⟨md, by simp [member_step, proc_restart, hv], ⟨h1, Or.inr hv⟩, rfl,
        by simp [member_step, proc_restart, hv, Effect.isMailSend]⟩
    | false =>
      have hst : md.ver_state ≠ none := by
        rcases h2 with h | h
        · exact h
        · rw [hv] at h; cases h
      obtain ⟨s, hs⟩ := Option.ne_none_iff_exists'.mp hst
      by_cases hterm : s = State.AWAIT_ID ∨ s = State.AWAIT_APPROVAL
      · exact ⟨md, by simp [member_step, proc_restart, hv, hs, hterm],
          ⟨h1, Or.inl hst⟩, rfl,
          by simp [member_step, proc_restart, hv, hs, hterm, Effect.isMailSend]⟩
      · refine ⟨{ md with ver_state := some State.AWAIT_NAME, ver_time := now },
          ?_, ⟨h1, Or.inl (by simp)⟩, rfl, ?_⟩
        · simp [member_step, proc_restart, hv, hs, hterm, proc_request_name]
        · simp [member_step, proc_restart, hv, hs, hterm, proc_request_name,
            Effect.isMailSend]
  | resendCmd =>
    cases hvs : md.ver_state with
    | none =>
      exact ⟨md, by simp [member_step, cmd_resend, is_verifying_user, hvs],
        ⟨h1, h2⟩, rfl,
        by simp [member_step, cmd_resend, is_verifying_user, hvs]⟩
    | some s =>
      cases hv : md.id_verified with
      | true =>
        exact ⟨md, by simp [member_step, cmd_resend, is_verifying_user, hvs, hv],
          ⟨h1, Or.inr hv⟩, rfl,
          by simp [member_step, cmd_resend, is_verifying_user, hvs, hv]⟩
      | false =>
        by_cases hcode : s = State.AWAIT_CODE
        · subst hcode
          exact ⟨md,
            by simp [member_step, cmd_resend, is_verifying_user, hvs, hv,
              proc_resend_email, proc_send_email, h1, StepRes.toRes],
            ⟨h1, Or.inl (by simp [hvs])⟩, rfl,
            by simp [member_step, cmd_resend, is_verifying_user, hvs, hv,
              proc_resend_email, proc_send_email, h1, StepRes.toRes,
              Effect.isMailSend]⟩
        · exact ⟨md,
            by simp [member_step, cmd_resend, is_verifying_user, hvs, hv,
              proc_resend_email, hcode, StepRes.toRes],
            ⟨h1, Or.inl (by simp [hvs])⟩, rfl,
            by simp [member_step, cmd_resend, is_verifying_user, hvs, hv,
              proc_resend_email, hcode, StepRes.toRes]⟩
  | dm content attachments =>
    cases hv : md.id_verified with
    | true =>
      exact ⟨md, by simp [member_step, proc_handle_state, hv], ⟨h1, Or.inr hv⟩,
        rfl, by simp [member_step, proc_handle_state, hv]⟩
    | false =>
      have hst : md.ver_state ≠ none := by
        rcases h2 with h | h
        · exact h
        · rw [hv] at h; cases h
      obtain ⟨s, hs⟩ := Option.ne_none_iff_exists'.mp hst
      cases s with
      | AWAIT_NAME =>
        by_cases hlen : 500 < content.length
        · exact ⟨md,
            by simp [member_step, proc_handle_state, hv, hs, state_await_name,
              hlen, StepRes.toRes],
            ⟨h1, Or.inl hst⟩, rfl,
            by simp [member_step, proc_handle_state, hv, hs, state_await_name,
              hlen, StepRes.toRes, Effect.isMailSend]⟩
        · refine ⟨{ md with full_name := some content,
                            ver_state := some State.AWAIT_UNSW }, ?_,
            ⟨h1, Or.inl (by simp)⟩, rfl, ?_⟩
          · simp [member_step, proc_handle_state, hv, hs, state_await_name,
              hlen, proc_request_unsw, StepRes.toRes]
          · simp [member_step, proc_handle_state, hv, hs, state_await_name,
              hlen, proc_request_unsw, StepRes.toRes, Effect.isMailSend]
      | AWAIT_UNSW =>
        by_cases hy : pyLower content = "y" ∨ pyLower content = "yes"
        · refine ⟨{ md with ver_state := some State.AWAIT_ZID }, ?_,
            ⟨h1, Or.inl (by simp)⟩, rfl, ?_⟩
          · simp [member_step, proc_handle_state, hv, hs, state_await_unsw,
              hy, proc_request_zid, StepRes.toRes]
          · simp [member_step, proc_handle_state, hv, hs, state_await_unsw,
              hy, proc_request_zid, StepRes.toRes, Effect.isMailSend]
        · by_cases hn : pyLower content = "n" ∨ pyLower content = "no"
          · refine ⟨{ md with ver_state := some State.AWAIT_EMAIL }, ?_,
              ⟨h1, Or.inl (by simp)⟩, rfl, ?_⟩
            · simp [member_step, proc_handle_state, hv, hs, state_await_unsw,
                hy, hn, proc_request_email, StepRes.toRes]
            · simp [member_step, proc_handle_state, hv, hs, state_await_unsw,
                hy, hn, proc_request_email, StepRes.toRes, Effect.isMailSend]
          · exact ⟨md,
              by simp [member_step, proc_handle_state, hv, hs, state_await_unsw,
                hy, hn, StepRes.toRes],
              ⟨h1, Or.inl hst⟩, rfl,
              by simp [member_step, proc_handle_state, hv, hs, state_await_unsw,
                hy, hn, StepRes.toRes, Effect.isMailSend]⟩
      | AWAIT_ZID =>
        by_cases hz : is_valid_zid (pyLower content) = true
        · refine ⟨{ md with zid := some (pyLower content),
                            email := some (pyLower content ++
                              "@student.unsw.edu.au") }, ?_,
            ⟨h1, Or.inl (by simp [hs])⟩, rfl, ?_⟩
          · simp [member_step, proc_handle_state, hv, hs, state_await_zid, hz,
              proc_send_email, h1, StepRes.toRes]
          · simp [member_step, proc_handle_state, hv, hs, state_await_zid, hz,
              proc_send_email, h1, StepRes.toRes, Effect.isMailSend]
        · exact ⟨md,
            by simp [member_step, proc_handle_state, hv, hs, state_await_zid,
              hz, StepRes.toRes],
            ⟨h1, Or.inl hst⟩, rfl,
            by simp [member_step, proc_handle_state, hv, hs, state_await_zid,
              hz, StepRes.toRes, Effect.isMailSend]⟩
      | AWAIT_EMAIL =>
        by_cases he : is_valid_email content = true
        · refine ⟨{ md with email := some content }, ?_,
            ⟨h1, Or.inl (by simp [hs])⟩, rfl, ?_⟩
          · simp [member_step, proc_handle_state, hv, hs, state_await_email, he,
              proc_send_email, h1, StepRes.toRes]
          · simp [member_step, proc_handle_state, hv, hs, state_await_email, he,
              proc_send_email, h1, StepRes.toRes, Effect.isMailSend]
        · exact ⟨md,
            by simp [member_step, proc_handle_state, hv, hs, state_await_email,
              he, StepRes.toRes],
            ⟨h1, Or.inl hst⟩, rfl,
            by simp [member_step, proc_handle_state, hv, hs, state_await_email,
              he, StepRes.toRes, Effect.isMailSend]⟩
      | AWAIT_CODE =>
        by_cases hc : content = get_code ctx userId md.ver_time
        · cases hzid : md.zid with
          | none =>
            refine ⟨{ md with email_verified := true, ver_time := now,
                              ver_state := some State.AWAIT_ID }, ?_,
              ⟨h1, Or.inl (by simp)⟩, rfl, ?_⟩
            · simp [member_step, proc_handle_state, hv, hs, state_await_code,
                hc, hzid, proc_request_id, StepRes.toRes]
            · simp [member_step, proc_handle_state, hv, hs, state_await_code,
                hc, hzid, proc_request_id, StepRes.toRes, Effect.isMailSend]
          | some z =>
            refine ⟨{ md with email_verified := true, ver_time := now,
                              id_verified := true }, ?_,
              ⟨h1, Or.inr (by simp)⟩, rfl, ?_⟩
            · simp [member_step, proc_handle_state, hv, hs, state_await_code,
                hc, hzid, StepRes.toRes]
            · simp [member_step, proc_handle_state, hv, hs, state_await_code,
                hc, hzid, StepRes.toRes, proc_grant_rank, Effect.isMailSend]
        · exact ⟨md,
            by simp [member_step, proc_handle_state, hv, hs, state_await_code,
              hc, StepRes.toRes],
            ⟨h1, Or.inl hst⟩, rfl,
            by simp [member_step, proc_handle_state, hv, hs, state_await_code,
              hc, StepRes.toRes, Effect.isMailSend]⟩
      | AWAIT_ID =>
        by_cases ha : attachments.length = 0
        · exact ⟨md,
            by simp [member_step, proc_handle_state, hv, hs, state_await_id, ha,
              StepRes.toRes],
            ⟨h1, Or.inl hst⟩, rfl,
            by simp [member_step, proc_handle_state, hv, hs, state_await_id, ha,
              StepRes.toRes, Effect.isMailSend]⟩
        · refine ⟨{ md with id_message := some ctx.adminMsgId,
                            ver_state := some State.AWAIT_APPROVAL }, ?_,
            ⟨h1, Or.inl (by simp)⟩, rfl, ?_⟩
          · simp [member_step, proc_handle_state, hv, hs, state_await_id, ha,
              proc_forward_id_admins, StepRes.toRes]
          · simp [member_step, proc_handle_state, hv, hs, state_await_id, ha,
              proc_forward_id_admins, StepRes.toRes, Effect.isMailSend]
      | AWAIT_APPROVAL =>
        exact ⟨md, by simp [member_step, proc_handle_state, hv, hs],
          ⟨h1, Or.inl hst⟩, rfl,
          by simp [member_step, proc_handle_state, hv, hs]⟩

/-- C6 (amended): once a member has exhausted the send limit, no sequence of
member-issued operations (begin, restart, resend, message replies) alone
sends another verification email or changes the limit - PROVIDED the
record is not in the null-state shape left by a moderator rejection (i.e.
its state is non-null or the member is verified).  From a rejected
(null-state) exhausted record, the member-issued `begin` itself increases
`MAX_EMAIL_ATTEMPTS` by 2 and re-enables dispatch
(see the counterexample). -/
theorem c6_exhausted_no_email (ctx : Ctx) (userId : Nat) (md : MemberData)
    (h : ExhaustedNoReset md) (ops : List (Nat × MemberOp)) :
    (run_member_ops ctx userId (some md) ops).2.any Effect.isMailSend = false ∧
    ∀ md2, (run_member_ops ctx userId (some md) ops).1 = some md2 →
      md2.max_email_attempts = md.max_email_attempts ∧
      md2.email_attempts ≥ md2.max_email_attempts := by
  induction ops generalizing md with
  | nil =>
    refine ⟨rfl, ?_⟩
    rintro md2 h2
    cases h2
    exact ⟨rfl, h.1⟩
  | cons e rest ih =>
    obtain ⟨md1, hdb, hinv, hmax, hmail⟩ := member_step_exhausted ctx userId md e h
    have hrun : run_member_ops ctx userId (some md) (e :: rest) =
        ((run_member_ops ctx userId (some md1) rest).1,
          (member_step ctx userId (some md) e).eff ++
            (run_member_ops ctx userId (some md1) rest).2) := by
      simp [run_member_ops, hdb]
    obtain ⟨ihmail, ihrec⟩ := ih md1 hinv
    constructor
    · rw [hrun]
      simp only [List.any_append, Bool.or_eq_false_iff]
      exact ⟨hmail, ihmail⟩
    · intro md2 h2
      rw [hrun] at h2
      obtain ⟨hm2max, hm2ge⟩ := ihrec md2 h2
      exact ⟨hm2max.trans hmax, hm2ge⟩

/-- C6 witness for the amended statement: a concrete exhausted member in
`AWAIT_CODE` issues a resend, a restart, the name and the UNSW answer and
a zID - and no email goes out and the limit stays at 3. -/
theorem c6_exhausted_no_email_witness :
    ExhaustedNoReset { mdExhausted with ver_state := some State.AWAIT_CODE } ∧
    (run_member_ops ctxEx 7
      (some { mdExhausted with ver_state := some State.AWAIT_CODE })
      [(60, MemberOp.resendCmd), (61, MemberOp.restartCmd),
       (62, MemberOp.dm "Jane Doe" []), (63, MemberOp.dm "y" []),
       (64, MemberOp.dm "z1234567" []),
       (65, MemberOp.verifyCmd)]).2.any Effect.isMailSend = false := by
  have h : ExhaustedNoReset
      { mdExhausted with ver_state := some State.AWAIT_CODE } :=
    ⟨by decide, Or.inl (by simp)⟩
  exact ⟨h, (c6_exhausted_no_email ctxEx 7
    { mdExhausted with ver_state := some State.AWAIT_CODE } h
    [(60, MemberOp.resendCmd), (61, MemberOp.restartCmd),
     (62, MemberOp.dm "Jane Doe" []), (63, MemberOp.dm "y" []),
     (64, MemberOp.dm "z1234567" []),
     (65, MemberOp.verifyCmd)]).1⟩
